import Mathlib

/-!
Shallow embedding of `src/netlify/functions/verify-ad-copy.js`, a Netlify
serverless function that checks advertising copy against per-platform,
per-type character limits. The JavaScript handler is a pure function of
the incoming HTTP event except for a generated timestamp; we model it as
a Lean function of the event plus an explicit `now : String` parameter
standing for `new Date().toISOString()`.

JSON parsing (`JSON.parse`, a host builtin, not code of this repository)
is abstracted at the boundary: the event carries the *outcome* of parsing
(the extracted `platform` / `items` fields, or a marker that the string
failed to parse). Everything after that point is translated line by line
from the source.
-/

namespace AdCopy

/-- Truthiness of an optional string, as JavaScript sees it: `undefined`
and the empty string are falsy, every other string is truthy. -/
def truthyStr : Option String → Bool
  | none => false
  | some s => !(s == "")

/-- Truthiness of an optional boolean (`r.is_valid` may be `undefined` on
error results; `undefined` and `false` are falsy). -/
def truthyOptBool : Option Bool → Bool
  | some true => true
  | _ => false

/-- An input item as extracted from the request JSON: the `text` and
`type` fields may each be absent (lines 165-174 of the source treat a
missing or empty field the same way, via JS falsiness). -/
structure Item where
  text : Option String
  type : Option String
deriving Repr, DecidableEq

/-- Character limits by platform and ad type (source lines 130-150),
kept as an ordered association list so that `Object.keys` order is
preserved. -/
def limitsTable : List (String × List (String × Nat)) :=
  [("google_ads",
     [("headline", 30), ("description", 90), ("callout", 25), ("path", 15),
      ("sitelink_text", 25), ("sitelink_desc", 35), ("structured_snippet", 25)]),
   ("facebook_ads",
     [("headline", 40), ("description", 125), ("link_description", 30)]),
   ("linkedin_ads",
     [("headline", 150), ("description", 600), ("intro_text", 150)])]

/-- Lookup `limits[platform]` (source line 153 / 178). -/
def platformLimits (p : String) : Option (List (String × Nat)) :=
  limitsTable.lookup p

/-- Lookup `limits[platform][type]` (source line 178). -/
def limitFor (p t : String) : Option Nat :=
  (platformLimits p).bind (fun l => l.lookup t)

/-- Ordered key list `Object.keys(limits)` (source line 159). -/
def supportedPlatforms : List String :=
  limitsTable.map (fun pr => pr.1)

/-- Ordered key list `Object.keys(limits[platform])` (source line 188). -/
def supportedTypes (p : String) : Option (List String) :=
  (platformLimits p).map (fun l => l.map (fun pr => pr.1))

/-- The per-item result record (source lines 165-207). Fields that the
JavaScript object may omit are `Option`s; `none` models an absent key. -/
structure ItemResult where
  index : Nat
  text : String
  type : String
  character_count : Option Nat
  character_limit : Option Nat
  is_valid : Option Bool
  status : Option String
  overage : Option Nat
  recommendation : Option String
  error : Option String
  supported_types : Option (List String)
deriving Repr, DecidableEq

/-- Error message for a structurally invalid item (source line 170). -/
def missingFieldMsg : String := "Item missing \x27text\x27 or \x27type\x27 field"

/-- Error message for an unsupported type (source line 187). -/
def unsupportedTypeMsg (t p : String) : String :=
  "Unsupported type \x27" ++ t ++ "\x27 for platform \x27" ++ p ++ "\x27"

/-- The recommendation string (source line 205):
`Reduce by {overage} character{overage > 1 ? s : }`. -/
def recommendationMsg (overage : Nat) : String :=
  "Reduce by " ++ toString overage ++ " character" ++
    (if overage > 1 then "s" else "")

/-- JavaScript `s || d` on an optional string: the default applies to
every falsy value, so an absent field and the empty string both fall back
to `d`. -/
def orDefault (s : Option String) (d : String) : String :=
  if truthyStr s then s.getD d else d

/-- Verification of a single item (the body of `items.map`, source lines
165-207). -/
def verifyItem (platform : String) (index : Nat) (item : Item) : ItemResult :=
  if !truthyStr item.text || !truthyStr item.type then
    { index := index
      error := some missingFieldMsg
      text := orDefault item.text ""
      type := orDefault item.type "unknown"
      character_count := none, character_limit := none, is_valid := none
      status := none, overage := none, recommendation := none
      supported_types := none }
  else
    let text := item.text.getD ""
    let ty := item.type.getD ""
    let characterCount := text.length
    match limitFor platform ty with
    | none =>
      { index := index
        text := text
        type := ty
        character_count := some characterCount
        error := some (unsupportedTypeMsg ty platform)
        supported_types := supportedTypes platform
        character_limit := none, is_valid := none, status := none
        overage := none, recommendation := none }
    | some characterLimit =>
      let isValid : Bool := characterCount ≤ characterLimit
      let overage : Nat := if isValid then 0 else characterCount - characterLimit
      { index := index
        text := text
        type := ty
        character_count := some characterCount
        character_limit := some characterLimit
        is_valid := some isValid
        status := some (if isValid then "✓" else "✗")
        overage := some overage
        recommendation :=
          if overage > 0 then some (recommendationMsg overage) else none
        error := none
        supported_types := none }

/-- `items.map((item, index) => ...)` (source line 165): index-preserving
validation of the whole batch. -/
def validateItems (platform : String) (items : List Item) : List ItemResult :=
  items.enum.map (fun pr => verifyItem platform pr.1 pr.2)

/-- `results.filter(r => !r.error)` (source line 211). -/
def validResultsOf (rs : List ItemResult) : List ItemResult :=
  rs.filter (fun r => r.error.isNone)

/-- `validResults.filter(r => r.is_valid)` (source line 212). -/
def validItemsOf (rs : List ItemResult) : List ItemResult :=
  (validResultsOf rs).filter (fun r => truthyOptBool r.is_valid)

/-- `validResults.filter(r => !r.is_valid)` (source line 213). -/
def invalidItemsOf (rs : List ItemResult) : List ItemResult :=
  (validResultsOf rs).filter (fun r => !truthyOptBool r.is_valid)

/-- `results.filter(r => r.error)` (source line 214). -/
def errorItemsOf (rs : List ItemResult) : List ItemResult :=
  rs.filter (fun r => r.error.isSome)

/-- The `summary` object (source lines 221-227). -/
structure Summary where
  total_items : Nat
  valid_items : Nat
  invalid_items : Nat
  error_items : Nat
  all_valid : Bool
deriving Repr, DecidableEq

/-- Summary statistics computed from the result list (source lines
210-227). -/
def summarize (rs : List ItemResult) : Summary :=
  { total_items := rs.length
    valid_items := (validItemsOf rs).length
    invalid_items := (invalidItemsOf rs).length
    error_items := (errorItemsOf rs).length
    all_valid := (invalidItemsOf rs).length == 0 && (errorItemsOf rs).length == 0 }

/-- An entry of the `violations` list (source lines 230-235). -/
structure Violation where
  text : String
  type : String
  overage : Option Nat
  recommendation : Option String
deriving Repr, DecidableEq

/-- `invalidItems.map(...)` building the violations list (source lines
230-235). -/
def violationsOf (rs : List ItemResult) : List Violation :=
  (invalidItemsOf rs).map (fun r =>
    { text := r.text, type := r.type
      overage := r.overage, recommendation := r.recommendation })

/-- The 200 success envelope (source lines 217-237). -/
structure SuccessResponse where
  platform : String
  method : String
  timestamp : String
  summary : Summary
  results : List ItemResult
  violations : Option (List Violation)
deriving Repr, DecidableEq

/-- The `items` field as extracted from parsed JSON: either an array of
items, or present but not an array (carrying its `typeof` string, used
only for the `received` echo on line 124). -/
inductive ItemsField where
  | other (typeName : String)
  | array (l : List Item)
deriving Repr, DecidableEq

/-- The `{platform, items}` fields of a successfully parsed JSON payload
(POST body or GET `data` parameter). An absent field is `none`. -/
structure ParsedData where
  platform : Option String
  items : Option ItemsField
deriving Repr, DecidableEq

/-- Outcome of `decodeURIComponent` + `JSON.parse` on the GET `data`
query parameter (source lines 32-35). -/
inductive DataParam where
  | malformed
  | parsed (d : ParsedData)
deriving Repr, DecidableEq

/-- Outcome of `JSON.parse(event.body || "{}")` (source line 105):
`missing` models an absent or empty body (parsed as `{}`); `malformed`
carries the JS exception message. -/
inductive BodyField where
  | missing
  | malformed (message : String)
  | parsed (d : ParsedData)
deriving Repr, DecidableEq

/-- GET query parameters the handler reads (source lines 20-31). A `data`
parameter that is the empty string is falsy and behaves exactly like an
absent one, so both are `none`. -/
structure QueryParams where
  text : Option String
  type : Option String
  platform : Option String
  data : Option DataParam
deriving Repr, DecidableEq

/-- The parts of the Netlify event the handler consumes. -/
structure Event where
  httpMethod : String
  queryStringParameters : Option QueryParams
  body : BodyField
deriving Repr, DecidableEq

/-- The response body, one constructor per `JSON.stringify` site of the
source. `usage` is the static usage document (lines 60-99);
`invalidDataJson` is the 400 body with the usage hint (lines 40-51);
`invalidRequest` echoes what was received (lines 122-125);
`unsupportedPlatform` carries the supported-platform list (lines
157-160); `internalError` is the catch-all 500 body (lines 254-257). -/
inductive RespBody where
  | empty
  | usage
  | invalidDataJson
  | methodNotAllowed
  | invalidRequest (receivedPlatform : Option String) (receivedItems : String)
  | unsupportedPlatform (platform : String) (supported : List String)
  | success (r : SuccessResponse)
  | internalError (message : String)
deriving Repr, DecidableEq

/-- The CORS headers attached to every response (source lines 3-7). -/
def corsHeaders : List (String × String) :=
  [("Access-Control-Allow-Origin", "*"),
   ("Access-Control-Allow-Headers", "Content-Type"),
   ("Access-Control-Allow-Methods", "GET, POST, OPTIONS")]

/-- An HTTP response as the handler builds it. -/
structure Response where
  statusCode : Nat
  headers : List (String × String)
  body : RespBody
deriving Repr, DecidableEq

/-- The `received.items` echo (source line 124): `array[n]` for arrays,
`typeof items` otherwise. -/
def receivedItemsEcho : Option ItemsField → String
  | some (.array l) => "array[" ++ toString l.length ++ "]"
  | some (.other t) => t
  | none => "undefined"

/-- The pipeline from validated input to response (source lines 117-246):
input validation, platform check, per-item verification, summary and
envelope. `method` is `event.httpMethod`, `now` the generated timestamp. -/
def processRequest (platform : Option String) (items : Option ItemsField)
    (method now : String) : Response :=
  if !truthyStr platform || !(match items with | some (.array _) => true | _ => false) then
    { statusCode := 400, headers := corsHeaders
      body := .invalidRequest platform (receivedItemsEcho items) }
  else
    let p := platform.getD ""
    match platformLimits p with
    | none =>
      { statusCode := 400, headers := corsHeaders
        body := .unsupportedPlatform p supportedPlatforms }
    | some _ =>
      let l := match items with | some (.array l) => l | _ => []
      let results := validateItems p l
      let summary := summarize results
      { statusCode := 200
        headers := corsHeaders ++ [("Content-Type", "application/json")]
        body := .success
          { platform := p
            method := method
            timestamp := now
            summary := summary
            results := results
            violations :=
              if (invalidItemsOf results).length > 0
              then some (violationsOf results) else none } }

/-- The full handler (source lines 1-260), as a function of the event and
the generated timestamp. -/
def handler (event : Event) (now : String) : Response :=
  if event.httpMethod == "OPTIONS" then
    { statusCode := 200, headers := corsHeaders, body := .empty }
  else if event.httpMethod == "GET" then
    let params := event.queryStringParameters.getD ⟨none, none, none, none⟩
    if truthyStr params.text && truthyStr params.type then
      let platform := if truthyStr params.platform then params.platform else some "google_ads"
      processRequest platform
        (some (.array [⟨params.text, params.type⟩])) "GET" now
    else
      match params.data with
      | some .malformed =>
        { statusCode := 400, headers := corsHeaders, body := .invalidDataJson }
      | some (.parsed d) => processRequest d.platform d.items "GET" now
      | none =>
        { statusCode := 200, headers := corsHeaders, body := .usage }
  else if event.httpMethod == "POST" then
    match event.body with
    | .malformed msg =>
      { statusCode := 500, headers := corsHeaders, body := .internalError msg }
    | .missing => processRequest none none "POST" now
    | .parsed d => processRequest d.platform d.items "POST" now
  else
    { statusCode := 405, headers := corsHeaders, body := .methodNotAllowed }

/-! ### Claims -/

/-- C1: for every item whose text and type are non-empty, whose type has a
limit for the requested platform, and whose text length is at most that
limit, the ItemResult has `is_valid = true`, `overage = 0`, and no
`recommendation` field. -/
theorem c1_within_limit_valid (p t ty : String) (i L : Nat)
    (ht : t ≠ "") (hty : ty ≠ "")
    (hL : limitFor p ty = some L) (hlen : t.length ≤ L) :
    (verifyItem p i ⟨some t, some ty⟩).is_valid = some true ∧
    (verifyItem p i ⟨some t, some ty⟩).overage = some 0 ∧
    (verifyItem p i ⟨some t, some ty⟩).recommendation = none := by
  simp [verifyItem, truthyStr, ht, hty, hL, hlen]

theorem c1_within_limit_valid_witness :
    (verifyItem "google_ads" 0 ⟨some "Hello", some "headline"⟩).is_valid = some true ∧
    (verifyItem "google_ads" 0 ⟨some "Hello", some "headline"⟩).overage = some 0 ∧
    (verifyItem "google_ads" 0 ⟨some "Hello", some "headline"⟩).recommendation = none :=
  c1_within_limit_valid "google_ads" "Hello" "headline" 0 30
    (by decide) (by decide) (by decide) (by decide)

/-- C2: for every item whose text length exceeds the limit for its
platform/type pair, the ItemResult has `overage` exactly equal to
`length(text) - limit`, and a recommendation string equal to
`Reduce by N character` with a trailing `s` if and only if `N > 1`. -/
theorem c2_over_limit_overage (p t ty : String) (i L : Nat)
    (ht : t ≠ "") (hty : ty ≠ "")
    (hL : limitFor p ty = some L) (hlen : L < t.length) :
    (verifyItem p i ⟨some t, some ty⟩).overage = some (t.length - L) ∧
    (verifyItem p i ⟨some t, some ty⟩).recommendation =
      some ("Reduce by " ++ toString (t.length - L) ++ " character" ++
        (if t.length - L > 1 then "s" else "")) := by
  have hnot : ¬ t.length ≤ L := Nat.not_le.mpr hlen
  have hpos : 0 < t.length - L := Nat.sub_pos_of_lt hlen
  simp [verifyItem, truthyStr, ht, hty, hL, hnot, hpos, recommendationMsg]

theorem c2_over_limit_overage_witness :
    (verifyItem "google_ads" 0
      ⟨some "12345678901234567890123456789012", some "headline"⟩).overage = some 2 ∧
    (verifyItem "google_ads" 0
      ⟨some "12345678901234567890123456789012", some "headline"⟩).recommendation =
      some "Reduce by 2 characters" := by
  have h := c2_over_limit_overage "google_ads"
    "12345678901234567890123456789012" "headline" 0 30
    (by decide) (by decide) (by decide) (by decide)
  simpa using h

/-- On any result produced by `verifyItem`, the filter the source uses for
invalid items (no error, `is_valid` falsy) agrees with counting results
without an error field and with `is_valid` equal to `false`: error-free
results always carry an explicit boolean `is_valid`. -/
lemma verifyItem_invalid_pred (p : String) (i : Nat) (it : Item) :
    ((verifyItem p i it).error.isNone && !truthyOptBool (verifyItem p i it).is_valid) =
      ((verifyItem p i it).error.isNone && ((verifyItem p i it).is_valid == some false)) := by
  unfold verifyItem
  split
  · rfl
  · cases hM : limitFor p (it.type.getD "")
    · simp [hM]
    · rename_i L
      by_cases h : (it.text.getD "").length ≤ L <;> simp [hM, truthyOptBool, h]

/-- C3: for every validated batch, `summary.total_items` equals the length
of the results list, and `summary.all_valid` is true if and only if
`invalid_items = 0` and `error_items = 0`, where invalid counts results
without an error field and with `is_valid` false, and error counts results
with an error field. -/
theorem c3_summary_counts (p : String) (items : List Item) :
    (summarize (validateItems p items)).total_items = (validateItems p items).length ∧
    ((summarize (validateItems p items)).all_valid = true ↔
      ((summarize (validateItems p items)).invalid_items = 0 ∧
       (summarize (validateItems p items)).error_items = 0)) ∧
    (summarize (validateItems p items)).invalid_items =
      ((validateItems p items).filter
        (fun r => r.error.isNone && (r.is_valid == some false))).length ∧
    (summarize (validateItems p items)).error_items =
      ((validateItems p items).filter (fun r => r.error.isSome)).length := by
  refine ⟨rfl, ?_, ?_, rfl⟩
  · simp [summarize]
  · show (invalidItemsOf (validateItems p items)).length = _
    unfold invalidItemsOf validResultsOf
    rw [List.filter_filter]
    congr 1
    apply List.filter_congr
    intro r hr
    rcases List.mem_map.mp hr with ⟨pr, _, hpr⟩
    rw [← hpr, Bool.and_comm]
    exact verifyItem_invalid_pred p pr.1 pr.2

/-- C5 counterexample: a POST request whose body is malformed JSON does
not get a 400 — `JSON.parse(event.body)` throws inside the top-level try
block (source line 105), so the catch at line 248 answers 500. -/
theorem c5_counterexample :
    (handler ⟨"POST", none, .malformed "Unexpected end of JSON input"⟩ "ts").statusCode
      = 500 ∧
    (handler ⟨"POST", none, .malformed "Unexpected end of JSON input"⟩ "ts").statusCode
      ≠ 400 ∧
    handler ⟨"POST", none, .malformed "Unexpected end of JSON input"⟩ "ts" =
      ⟨500, corsHeaders, .internalError "Unexpected end of JSON input"⟩ := by
  refine ⟨rfl, by decide, rfl⟩

/-- C5 (amended): malformed JSON in the GET `data` query parameter — when
the simple `text`/`type` form does not apply — yields a structured 400
with a usage hint; malformed JSON in a POST body instead escapes to the
top-level catch and yields a 500 internal error carrying the parse
exception message. -/
theorem c5_malformed_json (t ty pl : Option String) (q : Option QueryParams)
    (b : BodyField) (msg now : String)
    (hty : (truthyStr t && truthyStr ty) = false) :
    handler ⟨"GET", some ⟨t, ty, pl, some .malformed⟩, b⟩ now =
      ⟨400, corsHeaders, .invalidDataJson⟩ ∧
    handler ⟨"POST", q, .malformed msg⟩ now =
      ⟨500, corsHeaders, .internalError msg⟩ := by
  constructor
  · simp [handler, hty]
  · rfl

theorem c5_malformed_json_witness :
    handler ⟨"GET", some ⟨none, none, none, some .malformed⟩, .missing⟩ "ts" =
      ⟨400, corsHeaders, .invalidDataJson⟩ ∧
    handler ⟨"POST", none, .malformed "Unexpected token"⟩ "ts" =
      ⟨500, corsHeaders, .internalError "Unexpected token"⟩ :=
  c5_malformed_json none none none none .missing "Unexpected token" "ts" (by decide)

/-- C6: for every item with a missing or falsy text or type, the
ItemResult carries the missing-field error, echoes the text with default
empty string and the type with default "unknown" (the default applying to
any falsy value, so an empty-string type also echoes as "unknown"), and —
in any result list containing it — lies in the error partition but in
neither the valid nor the invalid partition. -/
theorem c6_missing_field (p : String) (i : Nat) (item : Item)
    (h : truthyStr item.text = false ∨ truthyStr item.type = false) :
    verifyItem p i item =
      { index := i
        text := orDefault item.text ""
        type := orDefault item.type "unknown"
        character_count := none, character_limit := none, is_valid := none
        status := none, overage := none, recommendation := none
        error := some missingFieldMsg
        supported_types := none } ∧
    ∀ rs : List ItemResult, verifyItem p i item ∈ rs →
      (verifyItem p i item ∈ errorItemsOf rs ∧
       verifyItem p i item ∉ validItemsOf rs ∧
       verifyItem p i item ∉ invalidItemsOf rs) := by
  have hcond : (!truthyStr item.text || !truthyStr item.type) = true := by
    rcases h with h | h <;> simp [h]
  have heq : verifyItem p i item =
      { index := i
        text := orDefault item.text ""
        type := orDefault item.type "unknown"
        character_count := none, character_limit := none, is_valid := none
        status := none, overage := none, recommendation := none
        error := some missingFieldMsg
        supported_types := none } := by
    simp [verifyItem, hcond]
  refine ⟨heq, fun rs hmem => ⟨?_, ?_, ?_⟩⟩
  · exact List.mem_filter.mpr ⟨hmem, by rw [heq]; rfl⟩
  · intro hv
    have := (List.mem_filter.mp (List.mem_filter.mp hv).1).2
    rw [heq] at this
    simp at this
  · intro hv
    have := (List.mem_filter.mp (List.mem_filter.mp hv).1).2
    rw [heq] at this
    simp at this

theorem c6_missing_field_witness :
    verifyItem "google_ads" 0 ⟨some "hello", some ""⟩ =
      { index := 0
        text := "hello"
        type := "unknown"
        character_count := none, character_limit := none, is_valid := none
        status := none, overage := none, recommendation := none
        error := some missingFieldMsg
        supported_types := none } ∧
    ∀ rs : List ItemResult, verifyItem "google_ads" 0 ⟨some "hello", some ""⟩ ∈ rs →
      (verifyItem "google_ads" 0 ⟨some "hello", some ""⟩ ∈ errorItemsOf rs ∧
       verifyItem "google_ads" 0 ⟨some "hello", some ""⟩ ∉ validItemsOf rs ∧
       verifyItem "google_ads" 0 ⟨some "hello", some ""⟩ ∉ invalidItemsOf rs) :=
  c6_missing_field "google_ads" 0 ⟨some "hello", some ""⟩ (Or.inr (by decide))

/-- The POST request of the worked example in the spec:
`{"platform":"google_ads","items":[{"text":"12345678901234567890123456789012","type":"headline"}]}`. -/
def exampleEvent : Event :=
  ⟨"POST", none,
    .parsed ⟨some "google_ads",
      some (.array [⟨some "12345678901234567890123456789012", some "headline"⟩])⟩⟩

/-- Extract the first per-item result of a success response. -/
def firstResult (r : Response) : Option ItemResult :=
  match r.body with
  | .success s => s.results.head?
  | _ => none

/-- The result the handler actually produces for the example item. -/
def exampleResult : ItemResult :=
  { index := 0
    text := "12345678901234567890123456789012"
    type := "headline"
    character_count := some 32
    character_limit := some 30
    is_valid := some false
    status := some "✗"
    overage := some 2
    recommendation := some "Reduce by 2 characters"
    error := none
    supported_types := none }

/-- C7 counterexample: the example text is 32 characters long, so the
handler reports `character_count = 32`, `overage = 2` and
`recommendation = "Reduce by 2 characters"` — not 33, 3 and
`"Reduce by 3 characters"` as the claim states. -/
theorem c7_example_counterexample :
    firstResult (handler exampleEvent "ts") = some exampleResult ∧
    exampleResult.character_count = some 32 ∧
    exampleResult.character_count ≠ some 33 ∧
    exampleResult.overage = some 2 ∧
    exampleResult.overage ≠ some 3 ∧
    exampleResult.recommendation = some "Reduce by 2 characters" ∧
    exampleResult.recommendation ≠ some "Reduce by 3 characters" := by
  refine ⟨rfl, rfl, by decide, rfl, by decide, rfl, by decide⟩

/-- C7 (amended): for the example POST request, the single result has
`character_count = 32`, `character_limit = 30`, `is_valid = false`,
`overage = 2`, and `recommendation = "Reduce by 2 characters"`. -/
theorem c7_example_behavior :
    handler exampleEvent "ts" =
      ⟨200, corsHeaders ++ [("Content-Type", "application/json")],
       .success
         { platform := "google_ads"
           method := "POST"
           timestamp := "ts"
           summary :=
             { total_items := 1, valid_items := 0, invalid_items := 1
               error_items := 0, all_valid := false }
           results := [exampleResult]
           violations := some
             [{ text := "12345678901234567890123456789012"
                type := "headline"
                overage := some 2
                recommendation := some "Reduce by 2 characters" }] }⟩ := by
  rfl

/-- Every response out of the validation pipeline carries either the bare
CORS headers or the CORS headers plus the JSON content type. -/
lemma processRequest_headers (pl : Option String) (it : Option ItemsField)
    (m now : String) :
    (processRequest pl it m now).headers = corsHeaders ∨
    (processRequest pl it m now).headers =
      corsHeaders ++ [("Content-Type", "application/json")] := by
  unfold processRequest
  split
  · exact Or.inl rfl
  · cases hM : platformLimits (pl.getD "")
    · exact Or.inl (by simp [hM])
    · exact Or.inr (by simp [hM])

/-- Every response of the handler carries either the bare CORS headers or
the CORS headers plus the JSON content type. -/
lemma handler_headers (ev : Event) (now : String) :
    (handler ev now).headers = corsHeaders ∨
    (handler ev now).headers =
      corsHeaders ++ [("Content-Type", "application/json")] := by
  unfold handler
  split
  · exact Or.inl rfl
  split
  · dsimp only
    split
    · exact processRequest_headers _ _ _ _
    · split
      · exact Or.inl rfl
      · exact processRequest_headers _ _ _ _
      · exact Or.inl rfl
  split
  · split
    · exact Or.inl rfl
    · exact processRequest_headers _ _ _ _
    · exact processRequest_headers _ _ _ _
  · exact Or.inl rfl

/-- C8: every response the handler returns — success, usage document,
400, 405 and 500 alike — carries the CORS headers, in particular
`Access-Control-Allow-Origin: *`. -/
theorem c8_cors_on_every_response (ev : Event) (now : String) :
    ("Access-Control-Allow-Origin", "*") ∈ (handler ev now).headers := by
  rcases handler_headers ev now with h | h <;> rw [h]
  · simp [corsHeaders]
  · exact List.mem_append_left _ (by simp [corsHeaders])

/-- Erase the generated timestamp from a response, leaving everything
else intact. -/
def scrubTimestamp (r : Response) : Response :=
  match r.body with
  | .success s => { r with body := .success { s with timestamp := "" } }
  | _ => r

/-- The validation pipeline depends on the generated timestamp only
through the `timestamp` field of a success body. -/
lemma processRequest_scrub (pl : Option String) (it : Option ItemsField)
    (m t1 t2 : String) :
    scrubTimestamp (processRequest pl it m t1) =
      scrubTimestamp (processRequest pl it m t2) := by
  unfold processRequest
  split
  · rfl
  · cases hM : platformLimits (pl.getD "") <;> simp [hM, scrubTimestamp]

/-- C9: the handler is deterministic in its input apart from the
timestamp — two invocations on the same event differ at most in the
generated timestamp field. -/
theorem c9_deterministic_modulo_timestamp (ev : Event) (t1 t2 : String) :
    scrubTimestamp (handler ev t1) = scrubTimestamp (handler ev t2) := by
  unfold handler
  split
  · rfl
  split
  · dsimp only
    split
    · exact processRequest_scrub _ _ _ _ _
    · split
      · rfl
      · exact processRequest_scrub _ _ _ _ _
      · rfl
  split
  · split
    · rfl
    · exact processRequest_scrub _ _ _ _ _
    · exact processRequest_scrub _ _ _ _ _
  · rfl

/-- C10: for a request with a supported platform and an empty items
array, the handler returns 200 with summary counts all zero,
`all_valid = true`, an empty results list, and no violations field. -/
theorem c10_empty_items (p now : String) (q : Option QueryParams)
    (tbl : List (String × Nat)) (h : platformLimits p = some tbl) :
    handler ⟨"POST", q, .parsed ⟨some p, some (.array [])⟩⟩ now =
      ⟨200, corsHeaders ++ [("Content-Type", "application/json")],
       .success
         { platform := p
           method := "POST"
           timestamp := now
           summary :=
             { total_items := 0, valid_items := 0, invalid_items := 0
               error_items := 0, all_valid := true }
           results := []
           violations := none }⟩ := by
  have hp : p ≠ "" := by
    intro e
    rw [e] at h
    have hnone : platformLimits "" = none := by rfl
    rw [hnone] at h
    exact Option.noConfusion h
  simp [handler, processRequest, truthyStr, hp, h, validateItems,
    summarize, validItemsOf, invalidItemsOf, errorItemsOf, validResultsOf,
    violationsOf]

theorem c10_empty_items_witness :
    handler ⟨"POST", none, .parsed ⟨some "google_ads", some (.array [])⟩⟩ "ts" =
      ⟨200, corsHeaders ++ [("Content-Type", "application/json")],
       .success
         { platform := "google_ads"
           method := "POST"
           timestamp := "ts"
           summary :=
             { total_items := 0, valid_items := 0, invalid_items := 0
               error_items := 0, all_valid := true }
           results := []
           violations := none }⟩ :=
  c10_empty_items "google_ads" "ts" none
    [("headline", 30), ("description", 90), ("callout", 25), ("path", 15),
     ("sitelink_text", 25), ("sitelink_desc", 35), ("structured_snippet", 25)]
    (by rfl)

end AdCopy
